import Mathlib

/-!
Shallow embedding of `ve.py` (`StreamBrowserAutomation`): a browser-automation
script that fetches an IP-based geolocation record, decodes a base64 constant
into a streaming-channel URL, and drives a primary plus a secondary browser
session in a loop while a live-stream indicator is present.

Effectful driver calls are modelled by a state-writer-exception monad `M`:
a computation consumes an oracle `World` (answers to element-presence queries
and which driver calls raise, both indexed by a global call counter) and
produces a result (`Except Exn`), a trace of observable driver/logging
events, and the advanced counter.  Browser drivers are opaque handles,
modelled as natural numbers; `get_new_driver` on parent `p` yields `p + 1`.
-/

/-- A Python exception, as caught by `except Exception as e`. -/
structure Exn where
  msg : String
deriving DecidableEq

/-- Observable events of a run: driver calls and log lines. -/
inductive Event where
  | createSession (d : Nat) (uc : Bool) (locale : String) (adBlock : Bool) (chromiumArg : String)
  | activateCdp (d : Nat) (url : String) (tz : String) (lat lon : Rat)
  | sleep (d : Nat) (secs : Nat)
  | click (d : Nat) (selector : String) (timeout : Nat)
  | queryPresent (d : Nat) (selector : String) (answer : Bool)
  | newDriver (parent child : Nat) (undetectable : Bool)
  | logError (msg : String)
  | logInfo (msg : String)
deriving DecidableEq

/-- Oracle for one run: which elements are present at the k-th driver call,
and whether the k-th driver call raises. -/
structure World where
  present : Nat → String → Bool
  raises : Nat → Option Exn

/-- State-writer-exception monad over a `World` oracle and a call counter. -/
abbrev M (α : Type) : Type := World → Nat → Except Exn α × List Event × Nat

def M.pure {α : Type} (x : α) : M α := fun _ n => (Except.ok x, [], n)

def M.bind {α β : Type} (m : M α) (f : α → M β) : M β := fun w n =>
  let r := m w n
  match r.1 with
  | Except.error e => (Except.error e, r.2.1, r.2.2)
  | Except.ok x =>
    let s := f x w r.2.2
    (s.1, r.2.1 ++ s.2.1, s.2.2)

/-- Generic driver call performing `ev`; it raises when the oracle says so
(and then the observable effect does not happen). -/
def driverOp (ev : Event) : M Unit := fun w n =>
  match w.raises n with
  | some e => (Except.error e, [], n + 1)
  | none => (Except.ok (), [ev], n + 1)

/-- Models `driver.is_element_present(sel)`; the answer comes from the oracle. -/
def isElementPresent (d : Nat) (sel : String) : M Bool := fun w n =>
  match w.raises n with
  | some e => (Except.error e, [], n + 1)
  | none => (Except.ok (w.present n sel), [Event.queryPresent d sel (w.present n sel)], n + 1)

/-- Models `primary_driver.get_new_driver(undetectable=True)`: a fresh handle. -/
def getNewDriver (parent : Nat) (undetectable : Bool) : M Nat := fun w n =>
  match w.raises n with
  | some e => (Except.error e, [], n + 1)
  | none => (Except.ok (parent + 1), [Event.newDriver parent (parent + 1) undetectable], n + 1)

/-- Models `logger.error(msg)`: never raises, consumes no driver call. -/
def logErrorOp (msg : String) : M Unit := fun _ n => (Except.ok (), [Event.logError msg], n)

/-- Models `logger.info(msg)`: never raises, consumes no driver call. -/
def logInfoOp (msg : String) : M Unit := fun _ n => (Except.ok (), [Event.logInfo msg], n)

/-- Models Python `try: m / except Exception as e: h e`. -/
def tryCatchM {α : Type} (m : M α) (h : Exn → M α) : M α := fun w n =>
  let r := m w n
  match r.1 with
  | Except.ok x => (Except.ok x, r.2.1, r.2.2)
  | Except.error e =>
    let s := h e w r.2.2
    (s.1, r.2.1 ++ s.2.1, s.2.2)

/-- Models `raise e`. -/
def throwM {α : Type} (e : Exn) : M α := fun _ n => (Except.error e, [], n)

/-! ### Configuration constants of `StreamBrowserAutomation` -/

def GEOLOCATION_API : String := "http://ip-api.com/json/"

def TARGET_CHANNEL : String := "YnJ1dGFsbGVz"

def TARGET_URL_TEMPLATE : String := "https://www.twitch.tv/\x7b\x7d"

def CLICK_TIMEOUT : Nat := 4

def SLEEP_SHORT : Nat := 2

def SLEEP_MEDIUM : Nat := 10

def SLEEP_LONG_MIN : Nat := 450

def SLEEP_LONG_MAX : Nat := 800

/-- SELECTORS["accept_button"]. -/
def accept_button : String := "button:contains(\"Accept\")"

/-- SELECTORS["start_watching"]. -/
def start_watching : String := "button:contains(\"Start Watching\")"

/-- SELECTORS["live_stream"]. -/
def live_stream : String := "#live-channel-stream-information"

/-! ### Pure parts: lowercasing, base64 decoding, URL formatting -/

/-- Models Python `str.lower()` on the ASCII range (the only characters the
script ever lowercases are the two-letter country codes of the API). -/
def pyLower (s : String) : String :=
  String.mk (s.data.map (fun c =>
    if 'A' ≤ c ∧ c ≤ 'Z' then Char.ofNat (c.toNat + 32) else c))

/-- Value of one base64 alphabet character. -/
def b64val (c : Char) : Option Nat :=
  if 'A' ≤ c ∧ c ≤ 'Z' then some (c.toNat - 65)
  else if 'a' ≤ c ∧ c ≤ 'z' then some (c.toNat - 71)
  else if '0' ≤ c ∧ c ≤ '9' then some (c.toNat + 4)
  else if c = '+' then some 62
  else if c = '/' then some 63
  else none

/-- Models `base64.b64decode` on unpadded input whose length is a multiple of
four (the shape of the script's only constant `TARGET_CHANNEL`); any other
input is refused, as the real decoder would raise. -/
def b64decodeChars : List Char → Option (List Nat)
  | [] => some []
  | c1 :: c2 :: c3 :: c4 :: rest =>
    match b64val c1, b64val c2, b64val c3, b64val c4, b64decodeChars rest with
    | some v1, some v2, some v3, some v4, some more =>
      some ((v1 * 4 + v2 / 16) :: ((v2 % 16) * 16 + v3 / 4) :: ((v3 % 4) * 64 + v4) :: more)
    | _, _, _, _, _ => none
  | _ => none

/-- Models `bytes.decode("utf-8")` on its ASCII fragment (the decoded channel
name is ASCII); non-ASCII bytes are conservatively refused. -/
def utf8Decode (bs : List Nat) : Option String :=
  if bs.all (fun b => b < 128) then some (String.mk (bs.map Char.ofNat)) else none

/-- Models `template.format(arg)` for a template holding one positional
placeholder: replaces the first brace pair with `arg`. -/
def formatOne : List Char → String → List Char
  | [], _ => []
  | [c], _ => [c]
  | c1 :: c2 :: rest, arg =>
    if c1 = Char.ofNat 123 ∧ c2 = Char.ofNat 125 then arg.data ++ rest
    else c1 :: formatOne (c2 :: rest) arg

/-- Models `StreamBrowserAutomation._build_target_url`: decode the base64
constant and format it into the URL template.  `none` models the decode
raising (never happens on the fixed constant). -/
def build_target_url : Option String :=
  match b64decodeChars TARGET_CHANNEL.data with
  | none => none
  | some bs =>
    match utf8Decode bs with
    | none => none
    | some name => some (String.mk (formatOne TARGET_URL_TEMPLATE.data name))

/-! ### Geolocation fetch -/

/-- The geolocation record (dataclass `GeoLocation`). -/
structure GeoLocation where
  latitude : Rat
  longitude : Rat
  timezone : String
  country_code : String
deriving DecidableEq

/-- A network-level failure of `requests.get` (a `requests.RequestException`). -/
structure NetErr where
  msg : String
deriving DecidableEq

/-- An HTTP response of the geolocation API with the JSON fields the script
reads.  JSON numbers are modelled as rationals (the script only copies them). -/
structure HttpResponse where
  status : Nat
  lat : Rat
  lon : Rat
  timezone : String
  countryCode : String
deriving DecidableEq

/-- Failure modes of `_fetch_geolocation`. -/
inductive FetchErr where
  | network (e : NetErr)
  | httpStatus (code : Nat)
deriving DecidableEq

/-- Models `response.raise_for_status()`: raises `HTTPError` exactly on
4xx/5xx status codes. -/
def raise_for_status (r : HttpResponse) : Except FetchErr Unit :=
  if 400 ≤ r.status ∧ r.status < 600 then Except.error (FetchErr.httpStatus r.status)
  else Except.ok ()

/-- Models `StreamBrowserAutomation._fetch_geolocation`, parametrised by the
outcome of the HTTP GET.  On success it extracts `lat`, `lon`, `timezone` and
the lowercased `countryCode`; any `RequestException` is logged and re-raised
(hence simply propagates here). -/
def fetch_geolocation (resp : Except NetErr HttpResponse) : Except FetchErr GeoLocation :=
  match resp with
  | Except.error e => Except.error (FetchErr.network e)
  | Except.ok r =>
    match raise_for_status r with
    | Except.error e => Except.error e
    | Except.ok _ =>
      Except.ok { latitude := r.lat, longitude := r.lon, timezone := r.timezone,
                  country_code := pyLower r.countryCode }

/-! ### The automation object and its construction -/

/-- The `StreamBrowserAutomation` object after `__init__`: the geolocation
record, the built target URL and the once-rolled long-sleep duration. -/
structure StreamBrowserAutomation where
  geolocation : GeoLocation
  target_url : String
  random_sleep_duration : Nat
deriving DecidableEq

/-- Models `random.randint(lo, hi)` (inclusive bounds); `seed` is the
randomness drawn from the process-wide generator. -/
def randint (lo hi seed : Nat) : Nat := lo + seed % (hi - lo + 1)

/-- Failure modes of `__init__`. -/
inductive InitErr where
  | fetch (e : FetchErr)
  | decode
deriving DecidableEq

/-- Models `StreamBrowserAutomation.__init__`, parametrised by the HTTP GET
outcome and the randomness consumed by the single `random.randint` call. -/
def mkAutomation (resp : Except NetErr HttpResponse) (seed : Nat) :
    Except InitErr StreamBrowserAutomation :=
  match fetch_geolocation resp with
  | Except.error e => Except.error (InitErr.fetch e)
  | Except.ok g =>
    match build_target_url with
    | none => Except.error InitErr.decode
    | some url =>
      Except.ok { geolocation := g, target_url := url,
                  random_sleep_duration := randint SLEEP_LONG_MIN SLEEP_LONG_MAX seed }

/-! ### Driver helpers -/

/-- Models `_accept_dialogs`: click the accept button if present, then a
short pause; absent button means no further action. -/
def accept_dialogs (d : Nat) : M Unit :=
  M.bind (isElementPresent d accept_button) (fun p =>
    if p then
      M.bind (driverOp (Event.click d accept_button CLICK_TIMEOUT)) (fun _ =>
        driverOp (Event.sleep d SLEEP_SHORT))
    else M.pure ())

/-- Models `_wait_for_stream_load`: a medium pause, then click the
start-watching button if present followed by another medium pause. -/
def wait_for_stream_load (d : Nat) : M Unit :=
  M.bind (driverOp (Event.sleep d SLEEP_MEDIUM)) (fun _ =>
    M.bind (isElementPresent d start_watching) (fun p =>
      if p then
        M.bind (driverOp (Event.click d start_watching CLICK_TIMEOUT)) (fun _ =>
          driverOp (Event.sleep d SLEEP_MEDIUM))
      else M.pure ()))

/-- Statement sequence of `_initialize_driver` before its `return driver`:
activate CDP mode at the target URL with the spoofed timezone/coordinates,
short pause, accept dialogs. -/
def initialize_body (a : StreamBrowserAutomation) (d : Nat) : M Unit :=
  M.bind (driverOp (Event.activateCdp d a.target_url a.geolocation.timezone
    a.geolocation.latitude a.geolocation.longitude)) (fun _ =>
    M.bind (driverOp (Event.sleep d SLEEP_SHORT)) (fun _ =>
      accept_dialogs d))

/-- Models `_initialize_driver`; the `undetectable` parameter is accepted and,
as in the source, never read; the function returns the driver it was given. -/
def initialize_driver (a : StreamBrowserAutomation) (d : Nat) (undetectable : Bool) : M Nat :=
  M.bind (initialize_body a d) (fun _ => M.pure d)

/-- Statements of the `try` block of `_run_secondary_browser` before the final
primary sleep: spawn the secondary driver and run initialize/wait/accept on it. -/
def secondary_pre (a : StreamBrowserAutomation) (p : Nat) : M Unit :=
  M.bind (getNewDriver p true) (fun s =>
    M.bind (initialize_driver a s true) (fun _ =>
      M.bind (wait_for_stream_load s) (fun _ =>
        accept_dialogs s)))

/-- The whole `try` block of `_run_secondary_browser`: secondary setup, then
the primary sleeps for the stored randomized duration. -/
def secondary_setup (a : StreamBrowserAutomation) (p : Nat) : M Unit :=
  M.bind (secondary_pre a p) (fun _ =>
    driverOp (Event.sleep p a.random_sleep_duration))

/-- Models `_run_secondary_browser`: the `try` block under a catch-all handler
that only logs (the `finally` block of the source is empty). -/
def run_secondary_browser (a : StreamBrowserAutomation) (p : Nat) : M Unit :=
  tryCatchM (secondary_setup a p) (fun e =>
    logErrorOp (String.append "Secondary browser error: " e.msg))

/-! ### The main loop -/

/-- Tail of the loop body from the live-stream presence check on: if the
indicator is present, accept dialogs again, spawn the secondary session and
continue (`true`); otherwise log and break (`false`). -/
def liveCheck (a : StreamBrowserAutomation) (p : Nat) : M Bool :=
  M.bind (isElementPresent p live_stream) (fun live =>
    if live then
      M.bind (accept_dialogs p) (fun _ =>
        M.bind (run_secondary_browser a p) (fun _ => M.pure true))
    else
      M.bind (logInfoOp "Live stream not found, ending automation") (fun _ =>
        M.pure false))

/-- One iteration of the `while True` body of `_execute_automation_loop`
(inside its `try`): initialize, wait, accept, then the live check. -/
def loopBody (a : StreamBrowserAutomation) (p : Nat) : M Bool :=
  M.bind (initialize_driver a p false) (fun _ =>
    M.bind (wait_for_stream_load p) (fun _ =>
      M.bind (accept_dialogs p) (fun _ =>
        liveCheck a p)))

/-- The `except` handler of the loop body: log the error and break. -/
def loop_handler : Exn → M Bool := fun e =>
  M.bind (logErrorOp (String.append "Error in automation loop: " e.msg)) (fun _ =>
    M.pure false)

/-- Models `_execute_automation_loop` with explicit fuel bounding the number
of iterations observed (the source loop is otherwise unbounded). -/
def execute_automation_loop (a : StreamBrowserAutomation) (p : Nat) : Nat → M Unit
  | 0 => M.pure ()
  | fuel + 1 =>
    M.bind (tryCatchM (loopBody a p) loop_handler) (fun cont =>
      if cont then execute_automation_loop a p fuel else M.pure ())

/-- Models entering `with SB(uc=True, locale="en", ad_block=True,
chromium_arg="--disable-webgl")`: opening the primary session (handle 0). -/
def createPrimary : M Nat := fun w n =>
  match w.raises n with
  | some e => (Except.error e, [], n + 1)
  | none => (Except.ok 0, [Event.createSession 0 true "en" true "--disable-webgl"], n + 1)

/-- Models `StreamBrowserAutomation.run`: open the primary session and run the
loop; any exception is logged and re-raised. -/
def runMethod (a : StreamBrowserAutomation) (fuel : Nat) : M Unit :=
  tryCatchM (M.bind createPrimary (fun p => execute_automation_loop a p fuel))
    (fun e => M.bind (logErrorOp (String.append "Automation failed: " e.msg)) (fun _ =>
      throwM e))

/-- Top-level process error. -/
inductive ProgErr where
  | init (e : InitErr)
  | runtime (e : Exn)
deriving DecidableEq

/-- Models `main()`: construct the automation object, then call `run`.
Returns the process outcome and the trace of browser/log events. -/
def mainModel (resp : Except NetErr HttpResponse) (seed : Nat) (fuel : Nat) (w : World) :
    Except ProgErr Unit × List Event :=
  match mkAutomation resp seed with
  | Except.error e => (Except.error (ProgErr.init e), [])
  | Except.ok a =>
    match runMethod a fuel w 0 with
    | (Except.ok _, tr, _) => (Except.ok (), tr)
    | (Except.error e, tr, _) => (Except.error (ProgErr.runtime e), tr)

/-! ### Run-characterization lemmas -/

theorem M.pure_run {α : Type} (x : α) (w : World) (n : Nat) :
    M.pure x w n = (Except.ok x, [], n) := rfl

theorem M.bind_run_ok {α β : Type} (m : M α) (f : α → M β) (w : World) (n : Nat)
    {x : α} {tr : List Event} {n' : Nat} (h : m w n = (Except.ok x, tr, n')) :
    M.bind m f w n = ((f x w n').1, tr ++ (f x w n').2.1, (f x w n').2.2) := by
  simp [M.bind, h]

theorem M.bind_run_error {α β : Type} (m : M α) (f : α → M β) (w : World) (n : Nat)
    {e : Exn} {tr : List Event} {n' : Nat} (h : m w n = (Except.error e, tr, n')) :
    M.bind m f w n = (Except.error e, tr, n') := by
  simp [M.bind, h]

theorem tryCatchM_run_ok {α : Type} (m : M α) (h : Exn → M α) (w : World) (n : Nat)
    {x : α} {tr : List Event} {n' : Nat} (hr : m w n = (Except.ok x, tr, n')) :
    tryCatchM m h w n = (Except.ok x, tr, n') := by
  simp [tryCatchM, hr]

theorem tryCatchM_run_error {α : Type} (m : M α) (h : Exn → M α) (w : World) (n : Nat)
    {e : Exn} {tr : List Event} {n' : Nat} (hr : m w n = (Except.error e, tr, n')) :
    tryCatchM m h w n = ((h e w n').1, tr ++ (h e w n').2.1, (h e w n').2.2) := by
  simp [tryCatchM, hr]

theorem driverOp_run_ok (ev : Event) (w : World) (n : Nat) (h : w.raises n = none) :
    driverOp ev w n = (Except.ok (), [ev], n + 1) := by
  simp [driverOp, h]

theorem driverOp_run_error (ev : Event) (w : World) (n : Nat) {e : Exn}
    (h : w.raises n = some e) :
    driverOp ev w n = (Except.error e, [], n + 1) := by
  simp [driverOp, h]

theorem isElementPresent_run_ok (d : Nat) (sel : String) (w : World) (n : Nat)
    (h : w.raises n = none) :
    isElementPresent d sel w n
      = (Except.ok (w.present n sel), [Event.queryPresent d sel (w.present n sel)], n + 1) := by
  simp [isElementPresent, h]

/-! ### Trace predicates -/

/-- Every event that the computation `m` can emit, in any world, at any
counter, satisfies `P`. -/
def EventsOK {α : Type} (P : Event → Prop) (m : M α) : Prop :=
  ∀ w n e, e ∈ (m w n).2.1 → P e

theorem EventsOK.pure {α : Type} {P : Event → Prop} (x : α) : EventsOK P (M.pure x) := by
  intro w n e he
  simp [M.pure] at he

theorem EventsOK.bind {α β : Type} {P : Event → Prop} {m : M α} {f : α → M β}
    (hm : EventsOK P m) (hf : ∀ x, EventsOK P (f x)) : EventsOK P (M.bind m f) := by
  intro w n e he
  rcases hrun : m w n with ⟨r, tr, n2⟩
  cases r with
  | error err =>
    rw [M.bind_run_error m f w n hrun] at he
    exact hm w n e (by rw [hrun]; exact he)
  | ok x =>
    rw [M.bind_run_ok m f w n hrun] at he
    have he' : e ∈ tr ++ (f x w n2).2.1 := he
    rcases List.mem_append.mp he' with h1 | h2
    · exact hm w n e (by rw [hrun]; exact h1)
    · exact hf x w n2 e h2

theorem EventsOK.opTryCatch {α : Type} {P : Event → Prop} {m : M α} {h : Exn → M α}
    (hm : EventsOK P m) (hh : ∀ e, EventsOK P (h e)) : EventsOK P (tryCatchM m h) := by
  intro w n e he
  rcases hrun : m w n with ⟨r, tr, n2⟩
  cases r with
  | ok x =>
    rw [tryCatchM_run_ok m h w n hrun] at he
    exact hm w n e (by rw [hrun]; exact he)
  | error err =>
    rw [tryCatchM_run_error m h w n hrun] at he
    have he' : e ∈ tr ++ (h err w n2).2.1 := he
    rcases List.mem_append.mp he' with h1 | h2
    · exact hm w n e (by rw [hrun]; exact h1)
    · exact hh err w n2 e h2

theorem EventsOK.opEmit {P : Event → Prop} {ev : Event} (h : P ev) :
    EventsOK P (driverOp ev) := by
  intro w n e he
  cases hr : w.raises n with
  | some ex => rw [driverOp_run_error ev w n hr] at he; simp at he
  | none =>
    rw [driverOp_run_ok ev w n hr] at he
    simp at he
    rw [he]
    exact h

theorem EventsOK.opQuery {P : Event → Prop} {d : Nat} {sel : String}
    (h : ∀ b, P (Event.queryPresent d sel b)) : EventsOK P (isElementPresent d sel) := by
  intro w n e he
  cases hr : w.raises n with
  | some ex =>
    have hrun : isElementPresent d sel w n = (Except.error ex, [], n + 1) := by
      simp [isElementPresent, hr]
    rw [hrun] at he
    simp at he
  | none =>
    rw [isElementPresent_run_ok d sel w n hr] at he
    simp at he
    rw [he]
    exact h _

theorem EventsOK.opLogError {P : Event → Prop} (msg : String)
    (h : P (Event.logError msg)) : EventsOK P (logErrorOp msg) := by
  intro w n e he
  simp [logErrorOp] at he
  rw [he]
  exact h

theorem EventsOK.opLogInfo {P : Event → Prop} (msg : String)
    (h : P (Event.logInfo msg)) : EventsOK P (logInfoOp msg) := by
  intro w n e he
  simp [logInfoOp] at he
  rw [he]
  exact h

/-- Value-aware bind through `getNewDriver`: the bound continuation only ever
receives the handle `parent + 1`. -/
theorem EventsOK.bindNewDriver {β : Type} {P : Event → Prop} {parent : Nat} {u : Bool}
    {f : Nat → M β} (hnew : P (Event.newDriver parent (parent + 1) u))
    (hf : EventsOK P (f (parent + 1))) : EventsOK P (M.bind (getNewDriver parent u) f) := by
  intro w n e he
  cases hr : w.raises n with
  | some ex =>
    have hrun : getNewDriver parent u w n = (Except.error ex, [], n + 1) := by
      simp [getNewDriver, hr]
    rw [M.bind_run_error _ f w n hrun] at he
    simp at he
  | none =>
    have hrun : getNewDriver parent u w n
        = (Except.ok (parent + 1), [Event.newDriver parent (parent + 1) u], n + 1) := by
      simp [getNewDriver, hr]
    rw [M.bind_run_ok _ f w n hrun] at he
    have he' : e ∈ [Event.newDriver parent (parent + 1) u] ++ (f (parent + 1) w (n + 1)).2.1 := he
    rcases List.mem_append.mp he' with h1 | h2
    · simp at h1
      rw [h1]
      exact hnew
    · exact hf w (n + 1) e h2

/-! ### Composite trace lemmas -/

/-- Per-event facts about the events the three driver helpers can emit on a
given driver handle `d`. -/
def HelperEventP (a : StreamBrowserAutomation) (P : Event → Prop) (d : Nat) : Prop :=
  (∀ sel b, P (Event.queryPresent d sel b)) ∧
  (∀ sel, P (Event.click d sel CLICK_TIMEOUT)) ∧
  P (Event.sleep d SLEEP_SHORT) ∧
  P (Event.sleep d SLEEP_MEDIUM) ∧
  P (Event.activateCdp d a.target_url a.geolocation.timezone
    a.geolocation.latitude a.geolocation.longitude)

/-- Per-event facts sufficient to bound every event the main loop can emit
when run on automation object `a` with primary driver `p`. -/
def LoopEventP (a : StreamBrowserAutomation) (P : Event → Prop) (p : Nat) : Prop :=
  HelperEventP a P p ∧ HelperEventP a P (p + 1) ∧
  P (Event.newDriver p (p + 1) true) ∧
  P (Event.sleep p a.random_sleep_duration) ∧
  (∀ msg, P (Event.logError msg)) ∧
  (∀ msg, P (Event.logInfo msg))

theorem EventsOK.ofAcceptDialogs {a : StreamBrowserAutomation} {P : Event → Prop} {d : Nat}
    (h : HelperEventP a P d) : EventsOK P (accept_dialogs d) := by
  unfold accept_dialogs
  refine EventsOK.bind (EventsOK.opQuery (fun b => h.1 accept_button b)) (fun b => ?_)
  cases b with
  | false => exact EventsOK.pure ()
  | true =>
    exact EventsOK.bind (EventsOK.opEmit (h.2.1 accept_button)) (fun _ =>
      EventsOK.opEmit h.2.2.1)

theorem EventsOK.ofWaitForStreamLoad {a : StreamBrowserAutomation} {P : Event → Prop} {d : Nat}
    (h : HelperEventP a P d) : EventsOK P (wait_for_stream_load d) := by
  unfold wait_for_stream_load
  refine EventsOK.bind (EventsOK.opEmit h.2.2.2.1) (fun _ => ?_)
  refine EventsOK.bind (EventsOK.opQuery (fun b => h.1 start_watching b)) (fun b => ?_)
  cases b with
  | false => exact EventsOK.pure ()
  | true =>
    exact EventsOK.bind (EventsOK.opEmit (h.2.1 start_watching)) (fun _ =>
      EventsOK.opEmit h.2.2.2.1)

theorem EventsOK.ofInitializeBody {a : StreamBrowserAutomation} {P : Event → Prop} {d : Nat}
    (h : HelperEventP a P d) : EventsOK P (initialize_body a d) := by
  unfold initialize_body
  refine EventsOK.bind (EventsOK.opEmit h.2.2.2.2) (fun _ => ?_)
  exact EventsOK.bind (EventsOK.opEmit h.2.2.1) (fun _ => EventsOK.ofAcceptDialogs h)

theorem EventsOK.ofInitializeDriver {a : StreamBrowserAutomation} {P : Event → Prop} {d : Nat}
    (h : HelperEventP a P d) (u : Bool) : EventsOK P (initialize_driver a d u) := by
  unfold initialize_driver
  exact EventsOK.bind (EventsOK.ofInitializeBody h) (fun _ => EventsOK.pure d)

theorem EventsOK.ofSecondaryPre {a : StreamBrowserAutomation} {P : Event → Prop} {p : Nat}
    (hnew : P (Event.newDriver p (p + 1) true))
    (h : HelperEventP a P (p + 1)) : EventsOK P (secondary_pre a p) := by
  unfold secondary_pre
  refine EventsOK.bindNewDriver hnew ?_
  refine EventsOK.bind (EventsOK.ofInitializeDriver h true) (fun _ => ?_)
  exact EventsOK.bind (EventsOK.ofWaitForStreamLoad h) (fun _ =>
    EventsOK.ofAcceptDialogs h)

theorem EventsOK.ofSecondarySetup {a : StreamBrowserAutomation} {P : Event → Prop} {p : Nat}
    (hL : LoopEventP a P p) : EventsOK P (secondary_setup a p) := by
  unfold secondary_setup
  exact EventsOK.bind (EventsOK.ofSecondaryPre hL.2.2.1 hL.2.1) (fun _ =>
    EventsOK.opEmit hL.2.2.2.1)

theorem EventsOK.ofRunSecondaryBrowser {a : StreamBrowserAutomation} {P : Event → Prop} {p : Nat}
    (hL : LoopEventP a P p) : EventsOK P (run_secondary_browser a p) := by
  unfold run_secondary_browser
  exact EventsOK.opTryCatch (EventsOK.ofSecondarySetup hL) (fun e =>
    EventsOK.opLogError _ (hL.2.2.2.2.1 _))

theorem EventsOK.ofLiveCheck {a : StreamBrowserAutomation} {P : Event → Prop} {p : Nat}
    (hL : LoopEventP a P p) : EventsOK P (liveCheck a p) := by
  unfold liveCheck
  refine EventsOK.bind (EventsOK.opQuery (fun b => hL.1.1 live_stream b)) (fun live => ?_)
  cases live with
  | true =>
    exact EventsOK.bind (EventsOK.ofAcceptDialogs hL.1) (fun _ =>
      EventsOK.bind (EventsOK.ofRunSecondaryBrowser hL) (fun _ => EventsOK.pure true))
  | false =>
    exact EventsOK.bind (EventsOK.opLogInfo _ (hL.2.2.2.2.2 _)) (fun _ =>
      EventsOK.pure false)

theorem EventsOK.ofLoopBody {a : StreamBrowserAutomation} {P : Event → Prop} {p : Nat}
    (hL : LoopEventP a P p) : EventsOK P (loopBody a p) := by
  unfold loopBody
  refine EventsOK.bind (EventsOK.ofInitializeDriver hL.1 false) (fun _ => ?_)
  refine EventsOK.bind (EventsOK.ofWaitForStreamLoad hL.1) (fun _ => ?_)
  exact EventsOK.bind (EventsOK.ofAcceptDialogs hL.1) (fun _ => EventsOK.ofLiveCheck hL)

theorem EventsOK.ofLoop {a : StreamBrowserAutomation} {P : Event → Prop} {p : Nat}
    (hL : LoopEventP a P p) :
    ∀ fuel, EventsOK P (execute_automation_loop a p fuel) := by
  intro fuel
  induction fuel with
  | zero => exact EventsOK.pure ()
  | succ k ih =>
    show EventsOK P (M.bind (tryCatchM (loopBody a p) loop_handler) _)
    refine EventsOK.bind (EventsOK.opTryCatch (EventsOK.ofLoopBody hL) (fun e => ?_))
      (fun cont => ?_)
    · exact EventsOK.bind (EventsOK.opLogError _ (hL.2.2.2.2.1 _)) (fun _ =>
        EventsOK.pure false)
    · cases cont with
      | true => exact ih
      | false => exact EventsOK.pure ()

/-! ### Behaviour when the live-stream indicator is absent -/

/-- The event is not a secondary-session spawn. -/
def NotNew (e : Event) : Prop := ∀ x y u, e ≠ Event.newDriver x y u

theorem helperEventP_notNew (a : StreamBrowserAutomation) (d : Nat) :
    HelperEventP a NotNew d := by
  refine ⟨?_, ?_, ?_, ?_, ?_⟩ <;> intros <;> intro x y u heq <;> exact Event.noConfusion heq

/-- In world `w`, the computation always yields the break verdict `false` (or
raises) and never emits a spawn event. -/
def BreakNoSpawn (m : M Bool) (w : World) : Prop :=
  ∀ n, ((m w n).1 = Except.ok false ∨ ∃ e, (m w n).1 = Except.error e)
    ∧ ∀ e ∈ (m w n).2.1, NotNew e

theorem BreakNoSpawn.bindDiscard {α : Type} {m : M α} {f : M Bool} {w : World}
    (hm : EventsOK NotNew m) (hf : BreakNoSpawn f w) :
    BreakNoSpawn (M.bind m (fun _ => f)) w := by
  intro n
  rcases hrun : m w n with ⟨r, tr, n2⟩
  cases r with
  | error err =>
    rw [M.bind_run_error m _ w n hrun]
    refine ⟨Or.inr ⟨err, rfl⟩, ?_⟩
    intro e he
    exact hm w n e (by rw [hrun]; exact he)
  | ok x =>
    rw [M.bind_run_ok m _ w n hrun]
    refine ⟨(hf n2).1, ?_⟩
    intro e he
    have he' : e ∈ tr ++ (f w n2).2.1 := he
    rcases List.mem_append.mp he' with h1 | h2
    · exact hm w n e (by rw [hrun]; exact h1)
    · exact (hf n2).2 e h2

theorem liveCheck_live_absent (a : StreamBrowserAutomation) (p : Nat) (w : World)
    (hp : ∀ k, w.present k live_stream = false) : BreakNoSpawn (liveCheck a p) w := by
  intro n
  unfold liveCheck
  cases hr : w.raises n with
  | some ex =>
    have hrun : isElementPresent p live_stream w n = (Except.error ex, [], n + 1) := by
      simp [isElementPresent, hr]
    rw [M.bind_run_error _ _ w n hrun]
    refine ⟨Or.inr ⟨ex, rfl⟩, ?_⟩
    intro e he
    simp at he
  | none =>
    have hrun : isElementPresent p live_stream w n
        = (Except.ok false, [Event.queryPresent p live_stream false], n + 1) := by
      rw [isElementPresent_run_ok p live_stream w n hr, hp n]
    rw [M.bind_run_ok _ _ w n hrun]
    refine ⟨Or.inl rfl, ?_⟩
    intro e he
    have he' : e ∈ [Event.queryPresent p live_stream false]
        ++ [Event.logInfo "Live stream not found, ending automation"] := he
    simp at he'
    rcases he' with h1 | h1 <;> rw [h1] <;> intro x y u hcontra <;> exact Event.noConfusion hcontra

theorem loopBody_live_absent (a : StreamBrowserAutomation) (p : Nat) (w : World)
    (hp : ∀ k, w.present k live_stream = false) : BreakNoSpawn (loopBody a p) w := by
  unfold loopBody
  exact BreakNoSpawn.bindDiscard (EventsOK.ofInitializeDriver (helperEventP_notNew a p) false)
    (BreakNoSpawn.bindDiscard (EventsOK.ofWaitForStreamLoad (helperEventP_notNew a p))
      (BreakNoSpawn.bindDiscard (EventsOK.ofAcceptDialogs (helperEventP_notNew a p))
        (liveCheck_live_absent a p w hp)))

/-- When the body always breaks (or raises), one guarded iteration of the
loop yields verdict `false` with a spawn-free trace. -/
theorem tc_body_run (a : StreamBrowserAutomation) (p : Nat) (w : World)
    (hb : BreakNoSpawn (loopBody a p) w) (n : Nat) :
    ∃ tr n2, tryCatchM (loopBody a p) loop_handler w n = (Except.ok false, tr, n2)
      ∧ ∀ e ∈ tr, NotNew e := by
  rcases hrun : loopBody a p w n with ⟨r, tr, n2⟩
  have hres := (hb n).1
  have htr := (hb n).2
  rw [hrun] at hres htr
  cases r with
  | ok b =>
    have hb' : b = false := by
      rcases hres with h1 | ⟨e, h1⟩
      · exact Except.ok.inj h1
      · exact absurd h1 (by simp)
    subst hb'
    exact ⟨tr, n2, tryCatchM_run_ok _ _ w n hrun, htr⟩
  | error err =>
    refine ⟨tr ++ [Event.logError (String.append "Error in automation loop: " err.msg)], n2,
      ?_, ?_⟩
    · rw [tryCatchM_run_error _ _ w n hrun]
      rfl
    · intro e he
      rcases List.mem_append.mp he with h1 | h1
      · exact htr e h1
      · simp at h1
        rw [h1]
        intro x y u hcontra
        exact Event.noConfusion hcontra

/-- With a body that always breaks, one unfolding of the loop computes the
whole run: extra fuel is never consumed. -/
theorem loop_run_of_break (a : StreamBrowserAutomation) (p : Nat) (w : World)
    (n : Nat) {tr : List Event} {n2 : Nat}
    (htc : tryCatchM (loopBody a p) loop_handler w n = (Except.ok false, tr, n2)) :
    ∀ k, execute_automation_loop a p (k + 1) w n = (Except.ok (), tr ++ [], n2) := by
  intro k
  show M.bind (tryCatchM (loopBody a p) loop_handler) _ w n = _
  rw [M.bind_run_ok _ _ w n htc]
  exact rfl

/-! ### The secondary session: swallowed errors and the skipped sleep -/

/-- Everything the pre-sleep part of the secondary setup emits happens on the
secondary driver (or is the spawn event itself): never a sleep of the primary. -/
theorem secondary_pre_no_primary_sleep (a : StreamBrowserAutomation) (p : Nat) :
    EventsOK (fun e => ∀ s, e ≠ Event.sleep p s) (secondary_pre a p) := by
  refine EventsOK.ofSecondaryPre ?_ ?_
  · intro s heq
    exact Event.noConfusion heq
  · refine ⟨?_, ?_, ?_, ?_, ?_⟩
    · intro sel b s heq
      exact Event.noConfusion heq
    · intro sel s heq
      exact Event.noConfusion heq
    · intro s heq
      injection heq with h1 h2
      exact Nat.succ_ne_self p h1
    · intro s heq
      injection heq with h1 h2
      exact Nat.succ_ne_self p h1
    · intro s heq
      exact Event.noConfusion heq

/-- If the `try` block of `_run_secondary_browser` raises, its partial trace
holds no sleep of the primary driver: in particular the randomized long sleep
was skipped. -/
theorem secondary_setup_error_no_sleep (a : StreamBrowserAutomation) (p : Nat) (w : World)
    (n : Nat) {e : Exn} {tr : List Event} {n2 : Nat}
    (h : secondary_setup a p w n = (Except.error e, tr, n2)) :
    ∀ s, Event.sleep p s ∉ tr := by
  intro s hmem
  unfold secondary_setup at h
  rcases hrun : secondary_pre a p w n with ⟨r1, t1, k1⟩
  cases r1 with
  | error e1 =>
    rw [M.bind_run_error _ _ w n hrun] at h
    have ht : tr = t1 := by
      have := congrArg (fun z => z.2.1) h
      simp at this
      exact this.symm
    rw [ht] at hmem
    exact secondary_pre_no_primary_sleep a p w n _ (by rw [hrun]; exact hmem) s rfl
  | ok x =>
    rw [M.bind_run_ok _ _ w n hrun] at h
    cases hr2 : w.raises k1 with
    | none =>
      rw [driverOp_run_ok _ w k1 hr2] at h
      have := congrArg (fun z => z.1) h
      simp at this
    | some ex =>
      rw [driverOp_run_error _ w k1 hr2] at h
      have ht : tr = t1 := by
        have := congrArg (fun z => z.2.1) h
        simp at this
        exact this.symm
      rw [ht] at hmem
      exact secondary_pre_no_primary_sleep a p w n _ (by rw [hrun]; exact hmem) s rfl

/-- Error-path characterization of `_run_secondary_browser`: a raising setup
is caught, the handler logs, nothing else runs afterwards. -/
theorem run_secondary_browser_error_run (a : StreamBrowserAutomation) (p : Nat) (w : World)
    (n : Nat) {e : Exn} {tr : List Event} {n2 : Nat}
    (h : secondary_setup a p w n = (Except.error e, tr, n2)) :
    run_secondary_browser a p w n
      = (Except.ok (), tr ++ [Event.logError (String.append "Secondary browser error: " e.msg)],
         n2) := by
  unfold run_secondary_browser
  rw [tryCatchM_run_error _ _ w n h]
  exact rfl

/-- `_run_secondary_browser` never propagates an exception. -/
theorem run_secondary_browser_ok (a : StreamBrowserAutomation) (p : Nat) (w : World) (n : Nat) :
    (run_secondary_browser a p w n).1 = Except.ok () := by
  rcases hrun : secondary_setup a p w n with ⟨r, tr, n2⟩
  cases r with
  | ok x =>
    unfold run_secondary_browser
    rw [tryCatchM_run_ok _ _ w n hrun]
  | error e =>
    rw [run_secondary_browser_error_run a p w n hrun]

/-! ### Concrete objects for witnesses and counterexamples -/

/-- A concrete automation object. -/
def auto0 : StreamBrowserAutomation :=
  { geolocation := { latitude := 10, longitude := 20, timezone := "UTC", country_code := "us" },
    target_url := "https://www.twitch.tv/brutalles", random_sleep_duration := 500 }

/-- The automation object built from `resp0` with seed 0. -/
def a450 : StreamBrowserAutomation :=
  { geolocation := { latitude := 10, longitude := 20, timezone := "UTC", country_code := "us" },
    target_url := "https://www.twitch.tv/brutalles", random_sleep_duration := 450 }

/-- A world where no element is ever present and no call raises. -/
def wAbsent : World := { present := fun _ _ => false, raises := fun _ => none }

/-- A world where the first driver call raises and every element is present. -/
def wRaise0 : World :=
  { present := fun _ _ => true,
    raises := fun k => if k = 0 then some { msg := "boom" } else none }

/-- The mocked geolocation response of the spec. -/
def resp0 : HttpResponse :=
  { status := 200, lat := 10, lon := 20, timezone := "UTC", countryCode := "US" }

/-! ### Claims -/

/-- C7: building the target URL is pure and deterministic: decoding the fixed
base64 constant and formatting it into the URL template yields one fixed URL
string (determinism is purity of the definition), and the decode has no
failure at runtime: the result is `some`, never `none`. -/
theorem build_target_url_deterministic :
    build_target_url = some "https://www.twitch.tv/brutalles"
      ∧ build_target_url.isSome = true := by
  constructor
  · rfl
  · rfl

/-- C3: for every successful JSON response of the geolocation API, the derived
record copies `lat`, `lon` and `timezone` and lowercases `countryCode`. -/
theorem fetch_geolocation_fields (r : HttpResponse)
    (h : ¬ (400 ≤ r.status ∧ r.status < 600)) :
    fetch_geolocation (Except.ok r)
      = Except.ok { latitude := r.lat, longitude := r.lon, timezone := r.timezone,
                    country_code := pyLower r.countryCode } := by
  have hr : raise_for_status r = Except.ok () := by
    unfold raise_for_status
    exact if_neg h
  have hstep : fetch_geolocation (Except.ok r)
      = (match raise_for_status r with
         | Except.error e => Except.error e
         | Except.ok _ => Except.ok ⟨r.lat, r.lon, r.timezone, pyLower r.countryCode⟩) := rfl
  rw [hstep, hr]

/-- C3 witness: the spec's mocked response `lat 10, lon 20, "UTC", "US"`
yields country code `"us"` and the input coordinates. -/
theorem fetch_geolocation_fields_witness :
    fetch_geolocation (Except.ok resp0)
      = Except.ok { latitude := 10, longitude := 20, timezone := "UTC",
                    country_code := "us" } := by
  have h := fetch_geolocation_fields resp0 (by decide)
  rw [h]
  rfl

/-- C4: a failing geolocation call (network error, or 4xx/5xx status) makes
the whole process raise before any browser session exists: `mainModel` fails
with the fetch error and its event trace is empty (`run` is never reached). -/
theorem geolocation_failure_fatal :
    (∀ (e : NetErr) (seed fuel : Nat) (w : World),
      mainModel (Except.error e) seed fuel w
        = (Except.error (ProgErr.init (InitErr.fetch (FetchErr.network e))), []))
    ∧ (∀ (r : HttpResponse) (seed fuel : Nat) (w : World), 400 ≤ r.status → r.status < 600 →
      mainModel (Except.ok r) seed fuel w
        = (Except.error (ProgErr.init (InitErr.fetch (FetchErr.httpStatus r.status))), [])) := by
  constructor
  · intro e seed fuel w
    rfl
  · intro r seed fuel w h1 h2
    have hr : raise_for_status r = Except.error (FetchErr.httpStatus r.status) := by
      unfold raise_for_status
      exact if_pos ⟨h1, h2⟩
    have hf : fetch_geolocation (Except.ok r) = Except.error (FetchErr.httpStatus r.status) := by
      have hstep : fetch_geolocation (Except.ok r)
          = (match raise_for_status r with
             | Except.error e => Except.error e
             | Except.ok _ => Except.ok ⟨r.lat, r.lon, r.timezone, pyLower r.countryCode⟩) := rfl
      rw [hstep, hr]
    have hm : mkAutomation (Except.ok r) seed
        = Except.error (InitErr.fetch (FetchErr.httpStatus r.status)) := by
      have hstep2 : mkAutomation (Except.ok r) seed
          = (match fetch_geolocation (Except.ok r) with
             | Except.error e => Except.error (InitErr.fetch e)
             | Except.ok g =>
               match build_target_url with
               | none => Except.error InitErr.decode
               | some url => Except.ok ⟨g, url, randint SLEEP_LONG_MIN SLEEP_LONG_MAX seed⟩) := rfl
      rw [hstep2, hf]
    have hstep3 : mainModel (Except.ok r) seed fuel w
        = (match mkAutomation (Except.ok r) seed with
           | Except.error e => (Except.error (ProgErr.init e), [])
           | Except.ok a =>
             match runMethod a fuel w 0 with
             | (Except.ok _, tr, _) => (Except.ok (), tr)
             | (Except.error e, tr, _) => (Except.error (ProgErr.runtime e), tr)) := rfl
    rw [hstep3, hm]

/-- C4 witness: a network timeout and a 503 response each fail fatally with an
empty browser trace. -/
theorem geolocation_failure_fatal_witness :
    mainModel (Except.error { msg := "timeout" }) 0 1 wAbsent
        = (Except.error (ProgErr.init (InitErr.fetch (FetchErr.network { msg := "timeout" }))), [])
    ∧ mainModel (Except.ok { status := 503, lat := 0, lon := 0, timezone := "", countryCode := "" })
        0 1 wAbsent
        = (Except.error (ProgErr.init (InitErr.fetch (FetchErr.httpStatus 503))), []) :=
  ⟨geolocation_failure_fatal.1 { msg := "timeout" } 0 1 wAbsent,
   geolocation_failure_fatal.2 { status := 503, lat := 0, lon := 0, timezone := "", countryCode := "" }
     0 1 wAbsent (by decide) (by decide)⟩

/-- C8: with the targeted control absent, `_accept_dialogs` performs no click
and returns normally, and `_wait_for_stream_load` performs only its fixed
pause and no click, also returning normally. -/
theorem helpers_noop_when_absent (d : Nat) (w : World) (n : Nat) :
    (w.raises n = none → w.present n accept_button = false →
      accept_dialogs d w n = (Except.ok (), [Event.queryPresent d accept_button false], n + 1))
    ∧ (w.raises n = none → w.raises (n + 1) = none → w.present (n + 1) start_watching = false →
      wait_for_stream_load d w n
        = (Except.ok (), [Event.sleep d SLEEP_MEDIUM,
            Event.queryPresent d start_watching false], n + 2)) := by
  constructor
  · intro h1 h2
    unfold accept_dialogs
    have hrun : isElementPresent d accept_button w n
        = (Except.ok false, [Event.queryPresent d accept_button false], n + 1) := by
      rw [isElementPresent_run_ok d accept_button w n h1, h2]
    rw [M.bind_run_ok _ _ w n hrun]
    exact rfl
  · intro h1 h2 h3
    unfold wait_for_stream_load
    rw [M.bind_run_ok _ _ w n (driverOp_run_ok (Event.sleep d SLEEP_MEDIUM) w n h1)]
    have hrun : isElementPresent d start_watching w (n + 1)
        = (Except.ok false, [Event.queryPresent d start_watching false], n + 2) := by
      rw [isElementPresent_run_ok d start_watching w (n + 1) h2, h3]
    rw [M.bind_run_ok _ _ w (n + 1) hrun]
    exact rfl

/-- C8 witness: both helpers at a concrete absent-element world. -/
theorem helpers_noop_when_absent_witness :
    accept_dialogs 0 wAbsent 0 = (Except.ok (), [Event.queryPresent 0 accept_button false], 1)
    ∧ wait_for_stream_load 0 wAbsent 0
        = (Except.ok (), [Event.sleep 0 SLEEP_MEDIUM,
            Event.queryPresent 0 start_watching false], 2) :=
  ⟨(helpers_noop_when_absent 0 wAbsent 0).1 rfl rfl,
   (helpers_noop_when_absent 0 wAbsent 0).2 rfl rfl rfl⟩

/-- C10: the base64 constant decodes to "brutalles" and the built URL is
exactly "https://www.twitch.tv/brutalles"; `_initialize_driver` returns the
very driver it was passed, and its behaviour is independent of the
`undetectable` argument. -/
theorem target_url_value_and_driver_identity :
    build_target_url = some "https://www.twitch.tv/brutalles"
    ∧ (∀ (a : StreamBrowserAutomation) (d : Nat) (u : Bool) (w : World) (n x : Nat)
        (tr : List Event) (n2 : Nat),
        initialize_driver a d u w n = (Except.ok x, tr, n2) → x = d)
    ∧ (∀ (a : StreamBrowserAutomation) (d : Nat) (w : World) (n : Nat),
        initialize_driver a d true w n = initialize_driver a d false w n) := by
  refine ⟨rfl, ?_, ?_⟩
  · intro a d u w n x tr n2 h
    unfold initialize_driver at h
    rcases hrun : initialize_body a d w n with ⟨r1, t1, k1⟩
    cases r1 with
    | error e1 =>
      rw [M.bind_run_error _ _ w n hrun] at h
      have := congrArg (fun z => z.1) h
      simp at this
    | ok y =>
      rw [M.bind_run_ok _ _ w n hrun] at h
      have := congrArg (fun z => z.1) h
      simp [M.pure] at this
      exact this.symm
  · intro a d w n
    rfl

/-- C10 witness: a concrete run returning the passed driver handle 0. -/
theorem target_url_value_and_driver_identity_witness :
    (0 : Nat) = 0 :=
  target_url_value_and_driver_identity.2.1 auto0 0 false wAbsent 0 0
    [Event.activateCdp 0 "https://www.twitch.tv/brutalles" "UTC" 10 20,
     Event.sleep 0 SLEEP_SHORT, Event.queryPresent 0 accept_button false] 3 rfl

/-- C5: the randomized long-sleep duration is produced by the single
`random.randint` call of `__init__` (one seed, one stored field), always lies
in the inclusive bounds [450, 800], and every sleep the loop ever performs is
either a fixed pause or exactly this stored value. -/
theorem sleep_duration_once_and_bounded :
    ∀ (resp : Except NetErr HttpResponse) (seed : Nat) (a : StreamBrowserAutomation),
      mkAutomation resp seed = Except.ok a →
      (SLEEP_LONG_MIN ≤ a.random_sleep_duration ∧ a.random_sleep_duration ≤ SLEEP_LONG_MAX)
      ∧ ∀ (p : Nat) (w : World) (n fuel : Nat) (e : Event),
          e ∈ (execute_automation_loop a p fuel w n).2.1 →
          ∀ (d s : Nat), e = Event.sleep d s →
            s = SLEEP_SHORT ∨ s = SLEEP_MEDIUM ∨ s = a.random_sleep_duration := by
  intro resp seed a h
  have hdur : a.random_sleep_duration = randint SLEEP_LONG_MIN SLEEP_LONG_MAX seed := by
    unfold mkAutomation at h
    cases hf : fetch_geolocation resp with
    | error e1 =>
      rw [hf] at h
      exact absurd h (by simp)
    | ok g =>
      rw [hf] at h
      rw [show build_target_url = some "https://www.twitch.tv/brutalles" from rfl] at h
      have hag := Except.ok.inj h
      rw [← hag]
  constructor
  · rw [hdur]
    unfold randint SLEEP_LONG_MIN SLEEP_LONG_MAX
    have hm : seed % 351 < 351 := Nat.mod_lt _ (by decide)
    omega
  · intro p w n fuel e he d s hes
    have hP : LoopEventP a (fun ev => ∀ d s, ev = Event.sleep d s →
        s = SLEEP_SHORT ∨ s = SLEEP_MEDIUM ∨ s = a.random_sleep_duration) p := by
      refine ⟨⟨?_, ?_, ?_, ?_, ?_⟩, ⟨?_, ?_, ?_, ?_, ?_⟩, ?_, ?_, ?_, ?_⟩
      · intro sel b d1 s1 heq
        exact Event.noConfusion heq
      · intro sel d1 s1 heq
        exact Event.noConfusion heq
      · intro d1 s1 heq
        injection heq with hh1 hh2
        exact Or.inl hh2.symm
      · intro d1 s1 heq
        injection heq with hh1 hh2
        exact Or.inr (Or.inl hh2.symm)
      · intro d1 s1 heq
        exact Event.noConfusion heq
      · intro sel b d1 s1 heq
        exact Event.noConfusion heq
      · intro sel d1 s1 heq
        exact Event.noConfusion heq
      · intro d1 s1 heq
        injection heq with hh1 hh2
        exact Or.inl hh2.symm
      · intro d1 s1 heq
        injection heq with hh1 hh2
        exact Or.inr (Or.inl hh2.symm)
      · intro d1 s1 heq
        exact Event.noConfusion heq
      · intro d1 s1 heq
        exact Event.noConfusion heq
      · intro d1 s1 heq
        injection heq with hh1 hh2
        exact Or.inr (Or.inr hh2.symm)
      · intro msg d1 s1 heq
        exact Event.noConfusion heq
      · intro msg d1 s1 heq
        exact Event.noConfusion heq
    exact EventsOK.ofLoop hP fuel w n e he d s hes

/-- C5 witness: the object built from the mocked response with seed 0 gets
duration 450, within bounds, and a concrete loop sleep event is one of the
three admissible durations. -/
theorem sleep_duration_once_and_bounded_witness :
    (SLEEP_LONG_MIN ≤ a450.random_sleep_duration ∧ a450.random_sleep_duration ≤ SLEEP_LONG_MAX)
    ∧ (2 = SLEEP_SHORT ∨ 2 = SLEEP_MEDIUM ∨ 2 = a450.random_sleep_duration) :=
  ⟨(sleep_duration_once_and_bounded (Except.ok resp0) 0 a450 rfl).1,
   (sleep_duration_once_and_bounded (Except.ok resp0) 0 a450 rfl).2 0 wAbsent 0 1
     (Event.sleep 0 2) (by decide) 0 2 rfl⟩

/-- C9: the geolocation record is immutable after construction (the embedding
passes the automation object by value and no operation rebuilds it), and
every browser-session initialization event the loop emits carries exactly the
stored record's URL, timezone, latitude and longitude. -/
theorem geolocation_read_only :
    ∀ (a : StreamBrowserAutomation) (p : Nat) (w : World) (n fuel : Nat) (e : Event),
      e ∈ (execute_automation_loop a p fuel w n).2.1 →
      ∀ (d : Nat) (url tz : String) (la lo : Rat), e = Event.activateCdp d url tz la lo →
        url = a.target_url ∧ tz = a.geolocation.timezone
        ∧ la = a.geolocation.latitude ∧ lo = a.geolocation.longitude := by
  intro a p w n fuel e he d url tz la lo hee
  have hP : LoopEventP a (fun ev => ∀ (d : Nat) (url tz : String) (la lo : Rat),
      ev = Event.activateCdp d url tz la lo →
      url = a.target_url ∧ tz = a.geolocation.timezone
      ∧ la = a.geolocation.latitude ∧ lo = a.geolocation.longitude) p := by
    refine ⟨⟨?_, ?_, ?_, ?_, ?_⟩, ⟨?_, ?_, ?_, ?_, ?_⟩, ?_, ?_, ?_, ?_⟩
    · intro sel b d1 url1 tz1 la1 lo1 heq
      exact Event.noConfusion heq
    · intro sel d1 url1 tz1 la1 lo1 heq
      exact Event.noConfusion heq
    · intro d1 url1 tz1 la1 lo1 heq
      exact Event.noConfusion heq
    · intro d1 url1 tz1 la1 lo1 heq
      exact Event.noConfusion heq
    · intro d1 url1 tz1 la1 lo1 heq
      injection heq with hh1 hh2 hh3 hh4 hh5
      exact ⟨hh2.symm, hh3.symm, hh4.symm, hh5.symm⟩
    · intro sel b d1 url1 tz1 la1 lo1 heq
      exact Event.noConfusion heq
    · intro sel d1 url1 tz1 la1 lo1 heq
      exact Event.noConfusion heq
    · intro d1 url1 tz1 la1 lo1 heq
      exact Event.noConfusion heq
    · intro d1 url1 tz1 la1 lo1 heq
      exact Event.noConfusion heq
    · intro d1 url1 tz1 la1 lo1 heq
      injection heq with hh1 hh2 hh3 hh4 hh5
      exact ⟨hh2.symm, hh3.symm, hh4.symm, hh5.symm⟩
    · intro d1 url1 tz1 la1 lo1 heq
      exact Event.noConfusion heq
    · intro d1 url1 tz1 la1 lo1 heq
      exact Event.noConfusion heq
    · intro msg d1 url1 tz1 la1 lo1 heq
      exact Event.noConfusion heq
    · intro msg d1 url1 tz1 la1 lo1 heq
      exact Event.noConfusion heq
  exact EventsOK.ofLoop hP fuel w n e he d url tz la lo hee

/-- C9 witness: a concrete loop run emits the initialization event with
exactly the stored record's fields. -/
theorem geolocation_read_only_witness :
    "https://www.twitch.tv/brutalles" = a450.target_url ∧ "UTC" = a450.geolocation.timezone
      ∧ (10 : Rat) = a450.geolocation.latitude ∧ (20 : Rat) = a450.geolocation.longitude :=
  geolocation_read_only a450 0 wAbsent 0 1
    (Event.activateCdp 0 "https://www.twitch.tv/brutalles" "UTC" 10 20) (by decide)
    0 "https://www.twitch.tv/brutalles" "UTC" 10 20 rfl

/-- C2: in a world where the live-stream indicator is absent, each iteration's
trace contains no secondary-session spawn, and the loop stops after its first
iteration: granting any extra fuel changes nothing about the run. -/
theorem live_absent_terminates_without_spawn :
    ∀ (a : StreamBrowserAutomation) (p : Nat) (w : World),
      (∀ k, w.present k live_stream = false) →
      ∀ (n fuel : Nat),
        (∀ e ∈ (execute_automation_loop a p fuel w n).2.1,
          ∀ x y u, e ≠ Event.newDriver x y u)
        ∧ execute_automation_loop a p (fuel + 1) w n
            = execute_automation_loop a p 1 w n := by
  intro a p w hp n fuel
  have hb := loopBody_live_absent a p w hp
  obtain ⟨tr, n2, htc, htr⟩ := tc_body_run a p w hb n
  have hrun := loop_run_of_break a p w n htc
  constructor
  · cases fuel with
    | zero =>
      intro e he x y u
      exact absurd he (by simp [execute_automation_loop, M.pure])
    | succ k =>
      rw [hrun k]
      intro e he x y u
      have he' : e ∈ tr ++ [] := he
      rw [List.append_nil] at he'
      exact htr e he' x y u
  · rw [hrun fuel, hrun 0]

/-- C2 witness: a concrete world with the indicator always absent. -/
theorem live_absent_terminates_without_spawn_witness :
    (∀ k, wAbsent.present k live_stream = false)
    ∧ ((∀ e ∈ (execute_automation_loop a450 0 1 wAbsent 0).2.1,
          ∀ x y u, e ≠ Event.newDriver x y u)
        ∧ execute_automation_loop a450 0 2 wAbsent 0
            = execute_automation_loop a450 0 1 wAbsent 0) :=
  ⟨fun k => rfl,
   live_absent_terminates_without_spawn a450 0 wAbsent (fun k => rfl) 0 1⟩

/-- C6: every exception during the secondary session's creation or setup is
swallowed by the handler of `_run_secondary_browser` (the result is always a
normal return), the caught error is logged, and sequencing the loop's
continue verdict after the call always yields `true`: the loop proceeds to
its next iteration regardless. -/
theorem secondary_errors_swallowed :
    ∀ (a : StreamBrowserAutomation) (p : Nat) (w : World) (n : Nat),
      (run_secondary_browser a p w n).1 = Except.ok ()
      ∧ (∀ (e : Exn) (tr : List Event) (n2 : Nat),
          secondary_setup a p w n = (Except.error e, tr, n2) →
          Event.logError (String.append "Secondary browser error: " e.msg)
            ∈ (run_secondary_browser a p w n).2.1)
      ∧ (M.bind (run_secondary_browser a p) (fun _ => M.pure true) w n).1
          = Except.ok true := by
  intro a p w n
  refine ⟨run_secondary_browser_ok a p w n, ?_, ?_⟩
  · intro e tr n2 h
    rw [run_secondary_browser_error_run a p w n h]
    simp
  · rcases hrun : run_secondary_browser a p w n with ⟨r, tr2, n2⟩
    have hok := run_secondary_browser_ok a p w n
    rw [hrun] at hok
    have hr : r = Except.ok () := hok
    subst hr
    rw [M.bind_run_ok _ _ w n hrun]
    exact rfl

/-- C6 witness: a concrete world whose first call (the spawn) raises; the
error is swallowed and logged. -/
theorem secondary_errors_swallowed_witness :
    (run_secondary_browser auto0 0 wRaise0 0).1 = Except.ok ()
    ∧ Event.logError (String.append "Secondary browser error: " "boom")
        ∈ (run_secondary_browser auto0 0 wRaise0 0).2.1 :=
  ⟨(secondary_errors_swallowed auto0 0 wRaise0 0).1,
   (secondary_errors_swallowed auto0 0 wRaise0 0).2.1 ⟨"boom"⟩ [] 1 rfl⟩

/-- C1 counterexample: in the world whose first driver call (the secondary
spawn) raises, the setup of the secondary session raises, the error is
swallowed, and yet the primary's randomized sleep is NOT in the run's trace:
the claim that the subsequent sleep still executes fails at this input. -/
theorem secondary_sleep_skipped_cex :
    (secondary_setup auto0 0 wRaise0 0).1 = Except.error ⟨"boom"⟩
    ∧ Event.sleep 0 auto0.random_sleep_duration
        ∉ (run_secondary_browser auto0 0 wRaise0 0).2.1 :=
  ⟨rfl, by decide⟩

/-- C1 (amended): if the secondary setup raises, the error is swallowed inside
`_run_secondary_browser` and not propagated, but the primary session's
subsequent randomized sleep is skipped, not executed: the run ends with the
handler's log entry and the partial trace holds no sleep of the primary. -/
theorem secondary_error_swallowed_sleep_skipped :
    ∀ (a : StreamBrowserAutomation) (p : Nat) (w : World) (n : Nat) (e : Exn)
      (tr : List Event) (n2 : Nat),
      secondary_setup a p w n = (Except.error e, tr, n2) →
      run_secondary_browser a p w n
          = (Except.ok (),
             tr ++ [Event.logError (String.append "Secondary browser error: " e.msg)], n2)
      ∧ Event.sleep p a.random_sleep_duration ∉ tr := by
  intro a p w n e tr n2 h
  exact ⟨run_secondary_browser_error_run a p w n h,
    secondary_setup_error_no_sleep a p w n h a.random_sleep_duration⟩

/-- C1 amended-claim witness at the counterexample world. -/
theorem secondary_error_swallowed_sleep_skipped_witness :
    run_secondary_browser auto0 0 wRaise0 0
        = (Except.ok (),
           [] ++ [Event.logError (String.append "Secondary browser error: " "boom")], 1)
    ∧ Event.sleep 0 auto0.random_sleep_duration ∉ ([] : List Event) :=
  secondary_error_swallowed_sleep_skipped auto0 0 wRaise0 0 ⟨"boom"⟩ [] 1 rfl
